import Mathlib

/-!
Verification development for the NT-News aggregator.

The embedding models the `develop` side of `src/app.py` (the side the spec
describes: `fetch_news(source, query)`, `normalize_articles`, `fetch_all_news`,
and the sort in `main`), plus `src/main.py`.  Python values flowing through the
pipeline are JSON-like, so raw articles and normalized articles are modelled by
an inductive `Json` type; Python dictionary access (`d.get(k, default)`), which
raises `AttributeError` on non-dicts, is modelled in the `Except` monad, and
Python iteration (`for x in xs`) likewise.
-/

/-- A Python/JSON value as it appears in API responses and article records. -/
inductive Json where
  | null
  | bool (b : Bool)
  | num (n : Int)
  | str (s : String)
  | arr (elems : List Json)
  | obj (fields : List (String × Json))

/-- `d[k]` lookup inside a dict body (association list, first match wins). -/
def jLookup (kvs : List (String × Json)) (k : String) : Option Json :=
  List.lookup k kvs

/-- Python `kvs.get(k, dflt)` on a dict body: the value if present, else the default. -/
def jGetD (kvs : List (String × Json)) (k : String) (dflt : Json) : Json :=
  (jLookup kvs k).getD dflt

/-- Python `j.get(k, dflt)`: succeeds on dicts, raises `AttributeError` otherwise. -/
def pyGetD (j : Json) (k : String) (dflt : Json) : Except String Json :=
  match j with
  | .obj kvs => .ok (jGetD kvs k dflt)
  | _ => .error "AttributeError"

/-- Python `j.get(k)` (one-argument form, default `None`). -/
def pyGetN (j : Json) (k : String) : Except String Json :=
  pyGetD j k .null

/-- Python truthiness of a JSON-like value. -/
def isTruthy (j : Json) : Bool :=
  match j with
  | .null => false
  | .bool b => b
  | .num n => n != 0
  | .str s => s ≠ ""
  | .arr xs => !xs.isEmpty
  | .obj kvs => !kvs.isEmpty

/-- Python `for x in j`: lists yield elements, dicts their keys, strings their
characters; numbers, booleans and `None` raise `TypeError`. -/
def pyIter (j : Json) : Except String (List Json) :=
  match j with
  | .arr xs => .ok xs
  | .obj kvs => .ok (kvs.map (fun kv => .str kv.1))
  | .str s => .ok (s.toList.map (fun c => .str (String.singleton c)))
  | _ => .error "TypeError: not iterable"

mutual

/-- Python `repr` of a JSON-like value (used by `print` for non-strings). -/
def pyRepr : Json → String
  | .null => "None"
  | .bool b => if b then "True" else "False"
  | .num n => toString n
  | .str s => "\x27" ++ s ++ "\x27"
  | .arr xs => "[" ++ pyReprList xs ++ "]"
  | .obj kvs => "\x7b" ++ pyReprObj kvs ++ "\x7d"

/-- Comma-separated `repr`s of list elements. -/
def pyReprList : List Json → String
  | [] => ""
  | [x] => pyRepr x
  | x :: xs => pyRepr x ++ ", " ++ pyReprList xs

/-- Comma-separated `repr`s of dict entries. -/
def pyReprObj : List (String × Json) → String
  | [] => ""
  | [kv] => "\x27" ++ kv.1 ++ "\x27: " ++ pyRepr kv.2
  | kv :: kvs => "\x27" ++ kv.1 ++ "\x27: " ++ pyRepr kv.2 ++ ", " ++ pyReprObj kvs

end

/-- Python `str` of a JSON-like value, as `print` renders it. -/
def pyStr (j : Json) : String :=
  match j with
  | .str s => s
  | other => pyRepr other

/-! ## `datetime.strptime(s, "%Y-%m-%dT%H:%M:%S%z")` and `strftime("%Y-%m-%d")` -/

/-- The fields `datetime.strptime` produces for the format used in
`normalize_articles`; `tzMinutes` is the UTC offset of the `%z` part. -/
structure PyDateTime where
  year : Nat
  month : Nat
  day : Nat
  hour : Nat
  minute : Nat
  second : Nat
  tzMinutes : Int
deriving DecidableEq, Repr

/-- Value of a digit run, most significant first. -/
def natOfDigits (ds : List Char) : Nat :=
  ds.foldl (fun a c => a * 10 + (c.toNat - 48)) 0

/-- Split off the maximal leading run of decimal digits. -/
def takeDigitRun : List Char → List Char × List Char
  | [] => ([], [])
  | c :: cs =>
    if c.isDigit then
      let r := takeDigitRun cs
      (c :: r.1, r.2)
    else ([], c :: cs)

/-- Parse a 1-or-2 digit field whose value must lie in `[minV, maxV]`, as the
CPython `_strptime` regexes for `%m`, `%H`, `%M`, `%S` do when a non-digit
separator follows (none of these directives has a space-padded alternative).
A longer digit run fails (the separator that the format requires next cannot
match a digit). -/
def parse2Field (cs : List Char) (minV maxV : Nat) : Option (Nat × List Char) :=
  let r := takeDigitRun cs
  if r.1.length = 1 ∨ r.1.length = 2 then
    let v := natOfDigits r.1
    if minV ≤ v ∧ v ≤ maxV then some (v, r.2) else none
  else none

/-- The `%d` directive.  CPython compiles it to
`3[01]|[12]\d|0[1-9]|[1-9]| [1-9]`: one or two digits valued 1..31, or a
space-padded single digit 1..9 (a day written `" 5"` parses). -/
def parseDayField (cs : List Char) : Option (Nat × List Char) :=
  match cs with
  | ' ' :: d :: rest =>
    if d.isDigit ∧ d ≠ '0' then some (d.toNat - 48, rest) else none
  | _ => parse2Field cs 1 31

/-- Consume one expected literal character. -/
def expectChar (c : Char) : List Char → Option (List Char)
  | [] => none
  | x :: xs => if x = c then some xs else none

/-- Consume exactly two digits. -/
def parseExactly2 (cs : List Char) : Option (Nat × List Char) :=
  match cs with
  | a :: b :: rest =>
    if a.isDigit ∧ b.isDigit then some (natOfDigits [a, b], rest) else none
  | _ => none

/-- The optional seconds-and-fraction tail of a numeric `%z` offset.  CPython
requires colon use to be consistent: with `±HH:MM` a seconds part must be
written `:SS` (else `_strptime` raises `Inconsistent use of :`), and with
`±HHMM` it must be written `SS` (a stray colon makes the later
`int(z[4:6])` conversion raise).  Seconds are capped at 59 by the regex
`[0-5]\d`, and a fraction is 1-6 digits after a dot, ending the string. -/
def parseTzRest (colonStyle : Bool) (r2 : List Char) : Bool :=
  match r2 with
  | [] => true
  | _ =>
    match (if colonStyle then
            match r2 with
            | ':' :: t => some t
            | _ => none
          else
            match r2 with
            | ':' :: _ => none
            | _ => some r2) with
    | none => false
    | some r2b =>
      match parseExactly2 r2b with
      | none => false
      | some (ss, r3) =>
        if ss ≤ 59 then
          match r3 with
          | [] => true
          | '.' :: fs =>
            decide (1 ≤ fs.length) && decide (fs.length ≤ 6) && fs.all Char.isDigit
          | _ => false
        else false

/-- Parse the trailing `%z` directive, which must consume the rest of the
string: `Z` (case-sensitive) or `±HH[:]MM`, optionally followed by a
colon-consistent seconds part and fraction (see `parseTzRest`); minutes and
seconds are capped at 59 by the regex, and `datetime` then rejects offsets of
24 hours or more (`hh ≤ 23` suffices given `mm, ss ≤ 59`).  The seconds and
fraction are validated but not accumulated into the returned offset — nothing
downstream of `strptime` consumes the offset here. -/
def parseTzSuffix (cs : List Char) : Option Int :=
  match cs with
  | ['Z'] => some 0
  | c :: rest =>
    if c = '+' ∨ c = '-' then
      match parseExactly2 rest with
      | none => none
      | some (hh, r1) =>
        let colonStyle := match r1 with | ':' :: _ => true | _ => false
        let r1b := match r1 with | ':' :: t => t | _ => r1
        match parseExactly2 r1b with
        | none => none
        | some (mm, r2) =>
          if mm ≤ 59 ∧ hh ≤ 23 ∧ parseTzRest colonStyle r2 = true then
            some ((if c = '+' then 1 else -1) * (hh * 60 + mm))
          else none
    else none
  | _ => none

/-- Gregorian leap year, as `datetime` validates day-of-month. -/
def isLeapYear (y : Nat) : Bool :=
  y % 4 == 0 && (y % 100 != 0 || y % 400 == 0)

/-- Days in a month of a given year. -/
def daysInMonth (y m : Nat) : Nat :=
  if m = 2 then (if isLeapYear y then 29 else 28)
  else if m = 4 ∨ m = 6 ∨ m = 9 ∨ m = 11 then 30
  else 31

/-- `datetime.strptime(s, "%Y-%m-%dT%H:%M:%S%z")`: `%Y` is exactly four
digits, `%d` also accepts a space-padded single digit (`parseDayField`), the
literal `T` matches case-insensitively (the whole pattern is compiled with
`IGNORECASE`, except the `Z` of `%z`), and the constructed `datetime`
additionally validates the day against the month length and the second
against 59.  `none` models the `ValueError` the caller catches.  The model
covers the ASCII fragment: Python's `\d` additionally matches non-ASCII
Unicode decimal digits, so theorems about parse *failure* are stated for
ASCII strings, where this function and `_strptime` agree. -/
def strptimeIsoTz (s : String) : Option PyDateTime := do
  let cs := s.toList
  let ry := takeDigitRun cs
  if ry.1.length = 4 then
    let y := natOfDigits ry.1
    let r1 ← expectChar '-' ry.2
    let (m, r2) ← parse2Field r1 1 12
    let r3 ← expectChar '-' r2
    let (d, r4) ← parseDayField r3
    match r4 with
    | t :: r5 =>
      if t = 'T' ∨ t = 't' then
        let (hh, r6) ← parse2Field r5 0 23
        let r7 ← expectChar ':' r6
        let (mi, r8) ← parse2Field r7 0 59
        let r9 ← expectChar ':' r8
        let (ss, r10) ← parse2Field r9 0 61
        let tz ← parseTzSuffix r10
        if 1 ≤ y ∧ d ≤ daysInMonth y m ∧ ss ≤ 59 then
          some ⟨y, m, d, hh, mi, ss, tz⟩
        else none
      else none
    | [] => none
  else none

/-- Left-pad to two digits, as `strftime("%m")`/`("%d")` do. -/
def pad2 (n : Nat) : String :=
  if n < 10 then "0" ++ toString n else toString n

/-- Left-pad to four digits (`strftime("%Y")`; all years parsed here have four
digits, so the padding is only reached for years below 1000). -/
def pad4 (n : Nat) : String :=
  if n < 10 then "000" ++ toString n
  else if n < 100 then "00" ++ toString n
  else if n < 1000 then "0" ++ toString n
  else toString n

/-- `dt.strftime("%Y-%m-%d")`. -/
def strftimeYmd (dt : PyDateTime) : String :=
  pad4 dt.year ++ "-" ++ pad2 dt.month ++ "-" ++ pad2 dt.day

/-! ## `normalize_articles` (src/app.py, develop side) -/

/-- The `try: dt = datetime.strptime(content["published"], ...)` block: a
string that parses is reformatted to `YYYY-MM-DD`; a string that does not
parse is left unchanged (`ValueError` swallowed by the bare `except`), and a
non-string value is left unchanged too (`TypeError` swallowed likewise). -/
def parsePublishedFix (p : Json) : Json :=
  match p with
  | .str s =>
    match strptimeIsoTz s with
    | some dt => .str (strftimeYmd dt)
    | none => .str s
  | other => other

/-- One iteration of the `for art in articles` loop of `normalize_articles`:
`.ok (some c)` appends the normalized dict `c`, `.ok none` is the `continue`
for an unrecognized source, `.error` is an uncaught exception (`.get` on a
non-dict).  Field names, defaults and the constant Guardian author are taken
verbatim from the source. -/
def normalizeOne (art : Json) (source : String) : Except String (Option Json) :=
  if source = "NEWS" then
    match art with
    | .obj kvs =>
      match pyGetD (jGetD kvs "source" (.obj [])) "name" (.str source) with
      | .error e => .error e
      | .ok author =>
        .ok (some (.obj
          [("title", jGetD kvs "title" (.str "")),
           ("author", author),
           ("published", parsePublishedFix (jGetD kvs "publishedAt" (.str "Unknown Date"))),
           ("description", jGetD kvs "description" (.str "")),
           ("url", jGetD kvs "url" (.str "")),
           ("content", jGetD kvs "content" (.str ""))]))
    | _ => .error "AttributeError"
  else if source = "GUARDIAN" then
    match art with
    | .obj kvs =>
      match pyGetD (jGetD kvs "fields" (.obj [])) "trailText" (.str "") with
      | .error e => .error e
      | .ok trail =>
        .ok (some (.obj
          [("title", jGetD kvs "webTitle" (.str "")),
           ("author", .str "The Guardian"),
           ("published", parsePublishedFix (jGetD kvs "webPublicationDate" (.str "Unknown Date"))),
           ("description", trail),
           ("url", jGetD kvs "webUrl" (.str "")),
           ("content", trail)]))
    | _ => .error "AttributeError"
  else
    .ok none

/-- `normalize_articles(articles, source)`: the loop over the raw records,
appending each normalized dict; an exception in any iteration aborts the whole
call. -/
def normalizeArticles : List Json → String → Except String (List Json)
  | [], _ => .ok []
  | a :: as, src =>
    match normalizeOne a src with
    | .error e => .error e
    | .ok r =>
      match normalizeArticles as src with
      | .error e => .error e
      | .ok rest => .ok (r.toList ++ rest)

/-! ## `fetch_news` (src/app.py, develop side) -/

/-- Python `s.upper()` (the source identifiers are ASCII). -/
def pyUpper (s : String) : String :=
  String.mk (s.data.map Char.toUpper)

/-- Python `s.split(sep)` for a single-character separator: splits at every
occurrence, keeping empty pieces. -/
def splitCharsOn (sep : Char) : List Char → List String
  | [] => [""]
  | c :: cs =>
    let r := splitCharsOn sep cs
    if c = sep then "" :: r
    else
      match r with
      | [] => [String.mk [c]]
      | h :: t => String.mk (c :: h.data) :: t

/-- Python `s.split(".")`. -/
def pySplitDot (s : String) : List String :=
  splitCharsOn '.' s.data

/-- Python string `a <= b`: lexicographic comparison by code point. -/
def charListLe : List Char → List Char → Bool
  | [], _ => true
  | _ :: _, [] => false
  | x :: xs, y :: ys =>
    if x < y then true else if y < x then false else charListLe xs ys

/-- Python string `a <= b` on `String`. -/
def pyStrLe (a b : String) : Bool :=
  charListLe a.data b.data

/-- A value in an outbound request parameter dict (`pageSize` is an `int`, the
rest are strings). -/
inductive ParamV where
  | s (v : String)
  | n (v : Nat)
deriving DecidableEq

/-- `PAGE_SIZE` global constant. -/
def PAGE_SIZE : Nat := 25

/-- One entry of the `sources` table inside `fetch_news`. -/
structure SourceCfg where
  url : String
  params : List (String × ParamV)
  resultsKey : String

/-- The `"NEWS"` entry of the `sources` table: top-headlines with `country=us`
when the query is empty (falsy), otherwise the everything endpoint with `q`;
the `**` merge appends the conditional parameter after the common ones. -/
def newsCfg (apiKey query : String) : SourceCfg :=
  { url :=
      if query = "" then "https://newsapi.org/v2/top-headlines"
      else "https://newsapi.org/v2/everything"
    params :=
      [("apiKey", .s apiKey), ("language", .s "en"), ("pageSize", .n PAGE_SIZE)] ++
        (if query = "" then [("country", .s "us")] else [("q", .s query)])
    resultsKey := "articles" }

/-- The `"GUARDIAN"` entry of the `sources` table (`query or "*"`). -/
def guardianCfg (apiKey query : String) : SourceCfg :=
  { url := "https://content.guardianapis.com/search"
    params :=
      [("api-key", .s apiKey), ("q", .s (if query = "" then "*" else query)),
       ("show-fields", .s "trailText")]
    resultsKey := "response.results" }

/-- The extraction loop `for key in config["results_key"].split("."):
data = data.get(key, [])`.  The default for a missing key is the empty *list*,
so a second path component applied to that default calls `.get` on a list and
raises `AttributeError`. -/
def extractPath : Json → List String → Except String Json
  | data, [] => .ok data
  | data, k :: ks =>
    match data with
    | .obj kvs => extractPath (jGetD kvs k (.arr [])) ks
    | _ => .error "AttributeError"

/-- An HTTP oracle standing for `make_request`: given the URL and parameters it
returns the parsed JSON body.  `make_request` itself never raises (it catches
every exception and returns the empty dict), so the oracle is total. -/
def HttpFn : Type := String → List (String × ParamV) → Json

/-- Environment oracle for `os.getenv`. -/
def EnvFn : Type := String → Option String

/-- `fetch_news(source, query)`: key lookup and falsy check, membership in the
two-entry `sources` table, one `make_request` call, path extraction, iteration
of the extracted value, and normalization.  The second component records the
`make_request` calls actually performed (url, params), so that "no network
call" is observable. -/
def fetchNews (env : EnvFn) (http : HttpFn) (source : String) (query : String) :
    Except String (List Json) × List (String × List (String × ParamV)) :=
  match env (pyUpper source ++ "_API_KEY") with
  | none => (.ok [], [])
  | some apiKey =>
    if apiKey = "" then (.ok [], [])
    else if source = "NEWS" ∨ source = "GUARDIAN" then
      let cfg := if source = "NEWS" then newsCfg apiKey query else guardianCfg apiKey query
      let data := http cfg.url cfg.params
      let result : Except String (List Json) :=
        match extractPath data (pySplitDot cfg.resultsKey) with
        | .error e => .error e
        | .ok d =>
          match pyIter d with
          | .error e => .error e
          | .ok xs => normalizeArticles xs source
      (result, [(cfg.url, cfg.params)])
    else (.ok [], [])

/-! ## `fetch_all_news` and the sort in `main` (src/app.py, develop side) -/

/-- The collection loop of `fetch_all_news`: `outcomes` are the
`future.result()` values of the per-source `fetch_news` tasks in
`as_completed` order; `results.extend(...)` on success, `except Exception:
continue` on failure. -/
def fetchAllNews (outcomes : List (Except String (List Json))) : List Json :=
  outcomes.foldl
    (fun acc o =>
      match o with
      | .ok l => acc ++ l
      | .error _ => acc)
    []

/-- Insert into an already descending-sorted list, after any element whose key
is greater than or equal (so equal keys keep their original relative order). -/
def insertDescBy {α : Type} (key : α → String) (a : α) : List α → List α
  | [] => [a]
  | b :: bs => if pyStrLe (key b) (key a) then a :: b :: bs else b :: insertDescBy key a bs

/-- `sorted(xs, key=key, reverse=True)` for string keys: a stable sort,
descending in Python string order (lexicographic by code point), which Lean
string order matches. -/
def sortedDescBy {α : Type} (key : α → String) : List α → List α
  | [] => []
  | a :: as => insertDescBy key a (sortedDescBy key as)

/-- The sort key `lambda x: x["published"]` used in `main`, on article dicts
whose `published` value is a string (which is what `normalize_articles`
produces from string-valued raw fields). -/
def publishedKey (j : Json) : String :=
  match j with
  | .obj kvs =>
    match jLookup kvs "published" with
    | some (.str s) => s
    | _ => ""
  | _ => ""

/-! ## src/main.py -/

/-- `display_news(news_data)` of src/main.py: `news_data.get("news", [])`,
the `"No news found."` message when that is falsy, then the per-article loop
printing title, description and url (one-argument `.get`, default `None`).
Returns the printed lines; `.error` is an uncaught exception. -/
def displayNews (newsData : Json) : Except String (List String) := do
  let news ← pyGetD newsData "news" (.arr [])
  let xs ← pyIter news
  let bodies ← xs.mapM (fun article => do
    let t ← pyGetN article "title"
    let d ← pyGetN article "description"
    let u ← pyGetN article "url"
    pure ["----------------------------------------",
          "Title: " ++ pyStr t,
          "Description: " ++ pyStr d,
          "URL: " ++ pyStr u,
          "----------------------------------------"])
  pure ((if isTruthy news then [] else ["No news found."]) ++ bodies.flatten)

/-- The diagnostic `main()` prints when `CURRENTS_API_KEY` is unset. -/
def keyDiagMsg : String :=
  "Please set your Currents API key in the code or as an environment variable (CURRENTS_API_KEY)."

/-- `main()` of src/main.py.  `fetchOracle` stands for `fetch_news(api_key)`
(the `requests.get` + `raise_for_status` + `.json()` chain, which may raise,
hence `Except`).  The result pairs the printed lines with a flag telling
whether `fetch_news` was called; an `.error` result would model an exception
escaping `main`, and the `try/except Exception` makes that impossible. -/
def mainPy (env : EnvFn) (fetchOracle : String → Except String Json) :
    Except String (List String × Bool) :=
  match env "CURRENTS_API_KEY" with
  | none => .ok ([keyDiagMsg], false)
  | some apiKey =>
    if apiKey = "" then
      .ok ([keyDiagMsg], false)
    else
      match (do
          let newsData ← fetchOracle apiKey
          displayNews newsData) with
      | .ok lines => .ok (lines, true)
      | .error e => .ok (["An error occurred: " ++ e], true)

/-! ## Helpers for stating properties -/

/-- Field access `c[k]` on a normalized article dict, as an `Option`. -/
def jGetField (c : Json) (k : String) : Option Json :=
  match c with
  | .obj kvs => jLookup kvs k
  | _ => none

/-- Whether a dict value carries the key `k`. -/
def jHasKey (c : Json) (k : String) : Bool :=
  match c with
  | .obj kvs => (jLookup kvs k).isSome
  | _ => false

/-- All five canonical article fields are present. -/
def hasCanonicalFields (c : Json) : Bool :=
  jHasKey c "title" && jHasKey c "author" && jHasKey c "published" &&
    jHasKey c "description" && jHasKey c "url"

/-- Whether an optional field value is a string. -/
def isStringValue (v : Option Json) : Bool :=
  match v with
  | some (.str _) => true
  | _ => false

/-- Whether a string is pure ASCII (the fragment on which `strptimeIsoTz`
coincides with CPython, whose `\d` also matches non-ASCII decimal digits). -/
def allAscii (s : String) : Bool :=
  s.data.all (fun c => c.toNat < 128)

/-- The raw field each recognized provider stores the article URL under:
`url` for NEWS, `webUrl` for GUARDIAN. -/
def rawUrlKey (src : String) : String :=
  if src = "NEWS" then "url" else "webUrl"

/-! ## Concrete records used by the claims -/

/-- A merged article with `published = "2025-02-16"`. -/
def artFeb16 : Json :=
  .obj [("title", .str "A"), ("author", .str "NEWS"), ("published", .str "2025-02-16"),
        ("description", .str ""), ("url", .str "http://a"), ("content", .str "")]

/-- A merged article with `published = "2025-02-14"`. -/
def artFeb14 : Json :=
  .obj [("title", .str "B"), ("author", .str "NEWS"), ("published", .str "2025-02-14"),
        ("description", .str ""), ("url", .str "http://b"), ("content", .str "")]

/-- A merged article with `published = "Unknown Date"`. -/
def artUnknown : Json :=
  .obj [("title", .str "C"), ("author", .str "The Guardian"),
        ("published", .str "Unknown Date"), ("description", .str ""),
        ("url", .str "http://c"), ("content", .str "")]

/-- The merged list of the sorting claim, in concatenation order. -/
def mergedDemo : List Json := [artFeb16, artFeb14, artUnknown]

/-- A raw NEWS record with no `url` field. -/
def rawNoUrl : Json := .obj [("title", .str "t")]

/-- What `normalize_articles` actually produces for `rawNoUrl`. -/
def normNoUrl : Json :=
  .obj [("title", .str "t"), ("author", .str "NEWS"), ("published", .str "Unknown Date"),
        ("description", .str ""), ("url", .str ""), ("content", .str "")]

/-- The normalized article for a record carrying only the parsable timestamp. -/
def normParsedDate : Json :=
  .obj [("title", .str ""), ("author", .str "NEWS"), ("published", .str "2025-02-16"),
        ("description", .str ""), ("url", .str ""), ("content", .str "")]

/-- The normalized article for a record carrying an unparsable date string. -/
def normBadDate : Json :=
  .obj [("title", .str ""), ("author", .str "NEWS"), ("published", .str "16/02/2025"),
        ("description", .str ""), ("url", .str ""), ("content", .str "")]

/-- A raw NEWS record whose `title` key is present but holds `None`. -/
def rawNullTitle : Json := .obj [("title", Json.null)]

/-- What `normalize_articles` produces for `rawNullTitle`: the present `None`
is carried through (`dict.get` only substitutes the default for a missing
key). -/
def normNullTitle : Json :=
  .obj [("title", Json.null), ("author", .str "NEWS"), ("published", .str "Unknown Date"),
        ("description", .str ""), ("url", .str ""), ("content", .str "")]

/-- The GUARDIAN article normalized from a record carrying the parsable
timestamp. -/
def normParsedDateG : Json :=
  .obj [("title", .str ""), ("author", .str "The Guardian"), ("published", .str "2025-02-16"),
        ("description", .str ""), ("url", .str ""), ("content", .str "")]

/-- The GUARDIAN article normalized from a record carrying an unparsable date
string. -/
def normBadDateG : Json :=
  .obj [("title", .str ""), ("author", .str "The Guardian"), ("published", .str "16/02/2025"),
        ("description", .str ""), ("url", .str ""), ("content", .str "")]

/-- A GUARDIAN record that does carry its `webUrl`, preceding the url-less one
in the witness list. -/
def guardWithUrl : Json := .obj [("webUrl", .str "http://g")]

/-- Its normalized form. -/
def normGuardWithUrl : Json :=
  .obj [("title", .str ""), ("author", .str "The Guardian"), ("published", .str "Unknown Date"),
        ("description", .str ""), ("url", .str "http://g"), ("content", .str "")]

/-- The normalized form of the GUARDIAN record `[("webTitle", "t")]`, which is
missing `webUrl`. -/
def normGuardNoUrl : Json :=
  .obj [("title", .str "t"), ("author", .str "The Guardian"), ("published", .str "Unknown Date"),
        ("description", .str ""), ("url", .str ""), ("content", .str "")]

/-! ## Characterization lemmas -/

/-- `normalize_articles` on a singleton input: the loop body runs once. -/
lemma normalizeArticles_singleton (a : Json) (src : String) (out : List Json)
    (h : normalizeArticles [a] src = .ok out) :
    ∃ r, normalizeOne a src = .ok r ∧ out = r.toList := by
  unfold normalizeArticles at h
  cases hr : normalizeOne a src with
  | error e => rw [hr] at h; exact absurd h (by simp)
  | ok r =>
    rw [hr] at h
    unfold normalizeArticles at h
    simp only [Except.ok.injEq, List.append_nil] at h
    exact ⟨r, rfl, h.symm⟩

/-- Shape of the dict the `"NEWS"` branch of `normalize_articles` builds. -/
lemma normalizeOne_news_shape (kvs : List (String × Json)) (r : Option Json)
    (h : normalizeOne (Json.obj kvs) "NEWS" = .ok r) :
    ∃ author, r = some (Json.obj
      [("title", jGetD kvs "title" (.str "")),
       ("author", author),
       ("published", parsePublishedFix (jGetD kvs "publishedAt" (.str "Unknown Date"))),
       ("description", jGetD kvs "description" (.str "")),
       ("url", jGetD kvs "url" (.str "")),
       ("content", jGetD kvs "content" (.str ""))]) := by
  unfold normalizeOne at h
  simp only [reduceIte] at h
  cases hA : pyGetD (jGetD kvs "source" (.obj [])) "name" (.str "NEWS") with
  | error e => rw [hA] at h; exact absurd h (by simp)
  | ok author =>
    rw [hA] at h
    simp only [Except.ok.injEq] at h
    exact ⟨author, h.symm⟩

/-- Shape of the dict the `"GUARDIAN"` branch of `normalize_articles` builds. -/
lemma normalizeOne_guardian_shape (kvs : List (String × Json)) (r : Option Json)
    (h : normalizeOne (Json.obj kvs) "GUARDIAN" = .ok r) :
    ∃ trail, r = some (Json.obj
      [("title", jGetD kvs "webTitle" (.str "")),
       ("author", .str "The Guardian"),
       ("published", parsePublishedFix (jGetD kvs "webPublicationDate" (.str "Unknown Date"))),
       ("description", trail),
       ("url", jGetD kvs "webUrl" (.str "")),
       ("content", trail)]) := by
  unfold normalizeOne at h
  simp only [String.reduceEq, reduceIte] at h
  cases hA : pyGetD (jGetD kvs "fields" (.obj [])) "trailText" (.str "") with
  | error e => rw [hA] at h; exact absurd h (by simp)
  | ok trail =>
    rw [hA] at h
    simp only [Except.ok.injEq] at h
    exact ⟨trail, h.symm⟩

/-- Every dict a successful `normalize_articles` iteration appends carries the
five canonical fields. -/
lemma normalizeOne_fields (a : Json) (src : String) (c : Json)
    (h : normalizeOne a src = .ok (some c)) : hasCanonicalFields c = true := by
  by_cases h1 : src = "NEWS"
  · subst h1
    cases a with
    | obj kvs =>
      obtain ⟨author, hr⟩ := normalizeOne_news_shape kvs (some c) h
      simp only [Option.some.injEq] at hr
      subst hr
      rfl
    | null => exact absurd h (by simp [normalizeOne])
    | bool b => exact absurd h (by simp [normalizeOne])
    | num n => exact absurd h (by simp [normalizeOne])
    | str s => exact absurd h (by simp [normalizeOne])
    | arr xs => exact absurd h (by simp [normalizeOne])
  · by_cases h2 : src = "GUARDIAN"
    · subst h2
      cases a with
      | obj kvs =>
        obtain ⟨trail, hr⟩ := normalizeOne_guardian_shape kvs (some c) h
        simp only [Option.some.injEq] at hr
        subst hr
        rfl
      | null => exact absurd h (by simp [normalizeOne])
      | bool b => exact absurd h (by simp [normalizeOne])
      | num n => exact absurd h (by simp [normalizeOne])
      | str s => exact absurd h (by simp [normalizeOne])
      | arr xs => exact absurd h (by simp [normalizeOne])
    · unfold normalizeOne at h
      rw [if_neg h1, if_neg h2] at h
      exact absurd h (by simp)

/-- Pushing a successful lookup through the `.get(k, default)` default. -/
lemma jGetD_of_lookup (kvs : List (String × Json)) (k : String) (d v : Json)
    (h : jLookup kvs k = some v) : jGetD kvs k d = v := by
  simp [jGetD, h]

/-- For a recognized source, a non-raising loop iteration always appends one
article (the `continue` branch is only for unrecognized sources). -/
lemma normalizeOne_recognized_some (a : Json) (src : String) (r : Option Json)
    (hsrc : src = "NEWS" ∨ src = "GUARDIAN")
    (h : normalizeOne a src = .ok r) : ∃ c, r = some c := by
  rcases hsrc with hs | hs <;> subst hs
  · cases a with
    | obj kvs =>
      obtain ⟨author, ha⟩ := normalizeOne_news_shape kvs r h
      exact ⟨_, ha⟩
    | null => exact absurd h (by simp [normalizeOne])
    | bool b => exact absurd h (by simp [normalizeOne])
    | num n => exact absurd h (by simp [normalizeOne])
    | str s => exact absurd h (by simp [normalizeOne])
    | arr xs => exact absurd h (by simp [normalizeOne])
  · cases a with
    | obj kvs =>
      obtain ⟨trail, ha⟩ := normalizeOne_guardian_shape kvs r h
      exact ⟨_, ha⟩
    | null => exact absurd h (by simp [normalizeOne])
    | bool b => exact absurd h (by simp [normalizeOne])
    | num n => exact absurd h (by simp [normalizeOne])
    | str s => exact absurd h (by simp [normalizeOne])
    | arr xs => exact absurd h (by simp [normalizeOne])

/-- For a recognized source, `normalize_articles` produces exactly one output
article per raw record. -/
lemma normalizeArticles_length (arts : List Json) (src : String) (out : List Json)
    (hsrc : src = "NEWS" ∨ src = "GUARDIAN")
    (h : normalizeArticles arts src = .ok out) : out.length = arts.length := by
  induction arts generalizing out with
  | nil =>
    unfold normalizeArticles at h
    simp only [Except.ok.injEq] at h
    subst h
    rfl
  | cons a as ih =>
    unfold normalizeArticles at h
    cases h1 : normalizeOne a src with
    | error e => rw [h1] at h; exact absurd h (by simp)
    | ok r =>
      rw [h1] at h
      cases h2 : normalizeArticles as src with
      | error e => rw [h2] at h; exact absurd h (by simp)
      | ok rest =>
        rw [h2] at h
        simp only [Except.ok.injEq] at h
        subst h
        obtain ⟨c, hc⟩ := normalizeOne_recognized_some a src r hsrc h1
        subst hc
        simp [ih rest h2]

/-- The loop of `normalize_articles` distributes over list concatenation. -/
lemma normalizeArticles_append (xs ys : List Json) (src : String) (out : List Json)
    (h : normalizeArticles (xs ++ ys) src = .ok out) :
    ∃ o1 o2, normalizeArticles xs src = .ok o1 ∧ normalizeArticles ys src = .ok o2
      ∧ out = o1 ++ o2 := by
  induction xs generalizing out with
  | nil => exact ⟨[], out, rfl, h, by simp⟩
  | cons a as ih =>
    rw [List.cons_append] at h
    unfold normalizeArticles at h
    cases h1 : normalizeOne a src with
    | error e => rw [h1] at h; exact absurd h (by simp)
    | ok r =>
      rw [h1] at h
      cases h2 : normalizeArticles (as ++ ys) src with
      | error e => rw [h2] at h; exact absurd h (by simp)
      | ok rest =>
        rw [h2] at h
        simp only [Except.ok.injEq] at h
        subst h
        obtain ⟨o1, o2, hx, hy, hrest⟩ := ih rest h2
        refine ⟨r.toList ++ o1, o2, ?_, hy, ?_⟩
        · unfold normalizeArticles
          rw [h1, hx]
        · rw [hrest, List.append_assoc]

/-! ## Claims -/

/-- C1 (counterexample): `sorted(..., key=published, reverse=True)` on the
merged list with `published` values `"2025-02-16"`, `"2025-02-14"`,
`"Unknown Date"` does NOT place `"2025-02-16"` first and `"Unknown Date"`
last: under descending string comparison `"Unknown Date"` is first (the code
point of `U` exceeds that of `2`) and `"2025-02-14"` is last. -/
theorem sort_claimed_order_false :
    ((sortedDescBy publishedKey mergedDemo).head?.map publishedKey = some "Unknown Date")
    ∧ "Unknown Date" ≠ "2025-02-16"
    ∧ ((sortedDescBy publishedKey mergedDemo).getLast?.map publishedKey = some "2025-02-14")
    ∧ "2025-02-14" ≠ "Unknown Date" :=
  ⟨rfl, by decide, rfl, by decide⟩

/-- C1 (amended): sorting the merged list in descending order by the
`published` field as a string compare places `"Unknown Date"` first, then
`"2025-02-16"`, then `"2025-02-14"` — in particular `"2025-02-16"` precedes
`"2025-02-14"`, but the `"Unknown Date"` sentinel sorts above both dates. -/
theorem sort_desc_string_order :
    sortedDescBy publishedKey mergedDemo = [artUnknown, artFeb16, artFeb14] := rfl

/-- C2 (code evaluated at the failing input): for the GUARDIAN extraction path
`"response.results"`, a missing `"response"` key does NOT yield an empty list —
the first level defaults to the empty list `[]` and the second level then
calls `.get` on that list, raising `AttributeError`; hence `fetch_news` itself
raises for GUARDIAN whenever the response lacks `"response"` (for instance the
`{}` fallback `make_request` returns on any HTTP error).  The flat NEWS path
`"articles"` does yield the empty list as the spec says. -/
theorem guardian_extraction_error :
    extractPath (Json.obj []) (pySplitDot "response.results") = .error "AttributeError"
    ∧ (fetchNews (fun k => if k = "GUARDIAN_API_KEY" then some "key" else none)
        (fun _ _ => Json.obj []) "GUARDIAN" "climate").1 = .error "AttributeError"
    ∧ extractPath (Json.obj []) (pySplitDot "articles") = .ok (Json.arr []) :=
  ⟨rfl, rfl, rfl⟩

/-- C3 (counterexample): a raw record missing the URL field is NOT skipped by
`normalize_articles`: it appears in the returned list as a partial record with
`url = ""` — the returned list is not empty as the claim would require. -/
theorem missing_url_not_skipped :
    normalizeArticles [rawNoUrl] "NEWS" = .ok [normNoUrl]
    ∧ normalizeArticles [rawNoUrl] "NEWS" ≠ .ok [] := by
  refine ⟨rfl, fun hc => ?_⟩
  rw [show normalizeArticles [rawNoUrl] "NEWS" = .ok [normNoUrl] from rfl] at hc
  simp at hc

/-- C3 (amended): for every recognized source identifier (`url` is the raw
URL field of NEWS, `webUrl` of GUARDIAN) and every input list, a raw record
missing that field is NOT skipped by `normalize_articles`: whenever the call
returns, the record contributes — at its own position — a partial article
whose `url` field is the empty string. -/
theorem missing_url_included_with_empty_url (src : String)
    (hsrc : src = "NEWS" ∨ src = "GUARDIAN")
    (pre post : List Json) (kvs : List (String × Json)) (out : List Json)
    (hurl : jLookup kvs (rawUrlKey src) = none)
    (h : normalizeArticles (pre ++ Json.obj kvs :: post) src = .ok out) :
    ∃ c, out[pre.length]? = some c ∧ jGetField c "url" = some (Json.str "") := by
  obtain ⟨o1, o2, h1, h2, hout⟩ := normalizeArticles_append pre (Json.obj kvs :: post) src out h
  have hlen : o1.length = pre.length := normalizeArticles_length pre src o1 hsrc h1
  unfold normalizeArticles at h2
  cases hr : normalizeOne (Json.obj kvs) src with
  | error e => rw [hr] at h2; exact absurd h2 (by simp)
  | ok r =>
    rw [hr] at h2
    cases hrest : normalizeArticles post src with
    | error e => rw [hrest] at h2; exact absurd h2 (by simp)
    | ok orest =>
      rw [hrest] at h2
      simp only [Except.ok.injEq] at h2
      rcases hsrc with hs | hs <;> subst hs
      · obtain ⟨author, ha⟩ := normalizeOne_news_shape kvs r hr
        subst ha
        refine ⟨Json.obj
            [("title", jGetD kvs "title" (Json.str "")), ("author", author),
             ("published", parsePublishedFix (jGetD kvs "publishedAt" (Json.str "Unknown Date"))),
             ("description", jGetD kvs "description" (Json.str "")),
             ("url", jGetD kvs "url" (Json.str "")),
             ("content", jGetD kvs "content" (Json.str ""))], ?_, ?_⟩
        · rw [hout, ← h2, ← hlen, List.getElem?_append_right (Nat.le_refl _)]
          simp
        · rw [show rawUrlKey "NEWS" = "url" from rfl] at hurl
          simp only [jGetField, jLookup, List.lookup, String.reduceBEq, Option.some.injEq]
          simp [jGetD, hurl]
      · obtain ⟨trail, ha⟩ := normalizeOne_guardian_shape kvs r hr
        subst ha
        refine ⟨Json.obj
            [("title", jGetD kvs "webTitle" (Json.str "")), ("author", .str "The Guardian"),
             ("published", parsePublishedFix (jGetD kvs "webPublicationDate" (Json.str "Unknown Date"))),
             ("description", trail),
             ("url", jGetD kvs "webUrl" (Json.str "")),
             ("content", trail)], ?_, ?_⟩
        · rw [hout, ← h2, ← hlen, List.getElem?_append_right (Nat.le_refl _)]
          simp
        · rw [show rawUrlKey "GUARDIAN" = "webUrl" from rfl] at hurl
          simp only [jGetField, jLookup, List.lookup, String.reduceBEq, Option.some.injEq]
          simp [jGetD, hurl]

/-- Witness for the amended C3: a GUARDIAN record missing `webUrl`, placed
after a record that has one. -/
theorem missing_url_included_witness :
    ∃ c, [normGuardWithUrl, normGuardNoUrl][1]? = some c
      ∧ jGetField c "url" = some (Json.str "") :=
  missing_url_included_with_empty_url "GUARDIAN" (Or.inr rfl)
    [guardWithUrl] [] [("webTitle", Json.str "t")] [normGuardWithUrl, normGuardNoUrl]
    rfl rfl

/-- C4: the collection loop of `fetch_all_news` catches each task failure and
continues, so with one provider raising and the other returning `l` it returns
exactly `l` (in either completion order) — `N` articles for `N` fetched, and
no exception. -/
theorem fetchAll_tolerates_provider_failure (e : String) (l : List Json) :
    fetchAllNews [Except.error e, Except.ok l] = l
    ∧ fetchAllNews [Except.ok l, Except.error e] = l
    ∧ (fetchAllNews [Except.error e, Except.ok l]).length = l.length :=
  ⟨rfl, rfl, rfl⟩

/-- C5: for any raw record — NEWS `publishedAt` or GUARDIAN
`webPublicationDate` — whose timestamp is the string
`"2025-02-16T09:00:05Z"` (which parses under `%Y-%m-%dT%H:%M:%S%z`), the
normalized article carries `published = "2025-02-16"`; and for any record
whose timestamp string fails to parse, the original string is kept unchanged.
The kept-on-failure halves are stated for ASCII strings, on which
`strptimeIsoTz` coincides with CPython (`\d` also matches non-ASCII Unicode
decimal digits, which the model does not cover). -/
theorem published_reformatted_or_kept :
    (∀ (kvs : List (String × Json)) (out : List Json),
        jLookup kvs "publishedAt" = some (.str "2025-02-16T09:00:05Z") →
        normalizeArticles [Json.obj kvs] "NEWS" = .ok out →
        ∃ c, out = [c] ∧ jGetField c "published" = some (Json.str "2025-02-16"))
    ∧ (∀ (kvs : List (String × Json)) (out : List Json),
        jLookup kvs "webPublicationDate" = some (.str "2025-02-16T09:00:05Z") →
        normalizeArticles [Json.obj kvs] "GUARDIAN" = .ok out →
        ∃ c, out = [c] ∧ jGetField c "published" = some (Json.str "2025-02-16"))
    ∧ (∀ (kvs : List (String × Json)) (out : List Json) (s : String),
        allAscii s = true →
        strptimeIsoTz s = none →
        jLookup kvs "publishedAt" = some (.str s) →
        normalizeArticles [Json.obj kvs] "NEWS" = .ok out →
        ∃ c, out = [c] ∧ jGetField c "published" = some (Json.str s))
    ∧ (∀ (kvs : List (String × Json)) (out : List Json) (s : String),
        allAscii s = true →
        strptimeIsoTz s = none →
        jLookup kvs "webPublicationDate" = some (.str s) →
        normalizeArticles [Json.obj kvs] "GUARDIAN" = .ok out →
        ∃ c, out = [c] ∧ jGetField c "published" = some (Json.str s)) := by
  refine ⟨?_, ?_, ?_, ?_⟩
  · intro kvs out hpub h
    obtain ⟨r, hr, hout⟩ := normalizeArticles_singleton _ _ _ h
    obtain ⟨author, ha⟩ := normalizeOne_news_shape kvs r hr
    subst ha
    subst hout
    refine ⟨_, rfl, ?_⟩
    simp only [jGetField, jLookup, List.lookup, String.reduceBEq]
    rw [jGetD_of_lookup _ _ _ _ hpub]
    rfl
  · intro kvs out hpub h
    obtain ⟨r, hr, hout⟩ := normalizeArticles_singleton _ _ _ h
    obtain ⟨trail, ha⟩ := normalizeOne_guardian_shape kvs r hr
    subst ha
    subst hout
    refine ⟨_, rfl, ?_⟩
    simp only [jGetField, jLookup, List.lookup, String.reduceBEq]
    rw [jGetD_of_lookup _ _ _ _ hpub]
    rfl
  · intro kvs out s hascii hparse hpub h
    obtain ⟨r, hr, hout⟩ := normalizeArticles_singleton _ _ _ h
    obtain ⟨author, ha⟩ := normalizeOne_news_shape kvs r hr
    subst ha
    subst hout
    refine ⟨_, rfl, ?_⟩
    simp only [jGetField, jLookup, List.lookup, String.reduceBEq]
    rw [jGetD_of_lookup _ _ _ _ hpub]
    simp [parsePublishedFix, hparse]
  · intro kvs out s hascii hparse hpub h
    obtain ⟨r, hr, hout⟩ := normalizeArticles_singleton _ _ _ h
    obtain ⟨trail, ha⟩ := normalizeOne_guardian_shape kvs r hr
    subst ha
    subst hout
    refine ⟨_, rfl, ?_⟩
    simp only [jGetField, jLookup, List.lookup, String.reduceBEq]
    rw [jGetD_of_lookup _ _ _ _ hpub]
    simp [parsePublishedFix, hparse]

/-- Witness for C5: one parsing and one non-parsing concrete record per
provider. -/
theorem published_reformatted_witness :
    (∃ c, [normParsedDate] = [c] ∧ jGetField c "published" = some (Json.str "2025-02-16"))
    ∧ (∃ c, [normParsedDateG] = [c] ∧ jGetField c "published" = some (Json.str "2025-02-16"))
    ∧ (∃ c, [normBadDate] = [c] ∧ jGetField c "published" = some (Json.str "16/02/2025"))
    ∧ (∃ c, [normBadDateG] = [c] ∧ jGetField c "published" = some (Json.str "16/02/2025")) :=
  ⟨published_reformatted_or_kept.1
      [("publishedAt", Json.str "2025-02-16T09:00:05Z")] [normParsedDate] rfl rfl,
   published_reformatted_or_kept.2.1
      [("webPublicationDate", Json.str "2025-02-16T09:00:05Z")] [normParsedDateG] rfl rfl,
   published_reformatted_or_kept.2.2.1
      [("publishedAt", Json.str "16/02/2025")] [normBadDate] "16/02/2025" rfl rfl rfl rfl,
   published_reformatted_or_kept.2.2.2
      [("webPublicationDate", Json.str "16/02/2025")] [normBadDateG] "16/02/2025" rfl rfl rfl rfl⟩

/-- C6: when the provider environment variable `{SOURCE}_API_KEY` is unset or
holds the empty string (falsy), `fetch_news` returns the empty list and the
list of `make_request` calls performed is empty — graceful degradation with no
network call, for every source and query. -/
theorem fetchNews_missing_key_no_request (env : EnvFn) (http : HttpFn)
    (source query : String)
    (h : env (pyUpper source ++ "_API_KEY") = none
        ∨ env (pyUpper source ++ "_API_KEY") = some "") :
    fetchNews env http source query = (.ok [], []) := by
  rcases h with h | h
  · simp [fetchNews, h]
  · simp [fetchNews, h]

/-- Witness for C6: unset key for NEWS, empty-string key for GUARDIAN. -/
theorem fetchNews_missing_key_witness :
    fetchNews (fun _ => none) (fun _ _ => Json.obj []) "NEWS" "" = (.ok [], [])
    ∧ fetchNews (fun _ => some "") (fun _ _ => Json.obj []) "GUARDIAN" "ai" = (.ok [], []) :=
  ⟨fetchNews_missing_key_no_request _ _ _ _ (Or.inl rfl),
   fetchNews_missing_key_no_request _ _ _ _ (Or.inr rfl)⟩

/-- C7: with a non-empty NEWS key, `fetch_news` performs exactly one request,
against the configuration `newsCfg`: the top-headlines endpoint with
`country=us` when the query is empty, the everything endpoint with `q` when it
is not, and in both cases the API key, `language=en` and the page size are
among the parameters. -/
theorem news_endpoint_selection (env : EnvFn) (http : HttpFn) (k q : String)
    (hk : env "NEWS_API_KEY" = some k) (hne : k ≠ "") :
    (fetchNews env http "NEWS" q).2 = [((newsCfg k q).url, (newsCfg k q).params)]
    ∧ (q = "" → (newsCfg k q).url = "https://newsapi.org/v2/top-headlines"
        ∧ ("country", ParamV.s "us") ∈ (newsCfg k q).params)
    ∧ (q ≠ "" → (newsCfg k q).url = "https://newsapi.org/v2/everything"
        ∧ ("q", ParamV.s q) ∈ (newsCfg k q).params)
    ∧ ("apiKey", ParamV.s k) ∈ (newsCfg k q).params
    ∧ ("language", ParamV.s "en") ∈ (newsCfg k q).params
    ∧ ("pageSize", ParamV.n PAGE_SIZE) ∈ (newsCfg k q).params := by
  refine ⟨?_, ?_, ?_, ?_, ?_, ?_⟩
  · unfold fetchNews
    rw [show pyUpper "NEWS" ++ "_API_KEY" = "NEWS_API_KEY" from rfl, hk]
    simp [hne]
  · intro hq
    subst hq
    exact ⟨rfl, by simp [newsCfg]⟩
  · intro hq
    exact ⟨by simp [newsCfg, hq], by simp [newsCfg, hq]⟩
  · simp [newsCfg]
  · simp [newsCfg]
  · simp [newsCfg]

/-- Witness for C7 with a concrete environment, both for an empty and for a
non-empty query. -/
theorem news_endpoint_selection_witness :
    (fetchNews (fun s => if s = "NEWS_API_KEY" then some "KEY" else none)
        (fun _ _ => Json.obj []) "NEWS" "").2
      = [((newsCfg "KEY" "").url, (newsCfg "KEY" "").params)]
    ∧ ("country", ParamV.s "us") ∈ (newsCfg "KEY" "").params
    ∧ (newsCfg "KEY" "ai").url = "https://newsapi.org/v2/everything"
    ∧ ("q", ParamV.s "ai") ∈ (newsCfg "KEY" "ai").params :=
  ⟨(news_endpoint_selection (fun s => if s = "NEWS_API_KEY" then some "KEY" else none)
      (fun _ _ => Json.obj []) "KEY" "" rfl (by decide)).1,
   ((news_endpoint_selection (fun s => if s = "NEWS_API_KEY" then some "KEY" else none)
      (fun _ _ => Json.obj []) "KEY" "" rfl (by decide)).2.1 rfl).2,
   ((news_endpoint_selection (fun s => if s = "NEWS_API_KEY" then some "KEY" else none)
      (fun _ _ => Json.obj []) "KEY" "ai" rfl (by decide)).2.2.1 (by decide)).1,
   ((news_endpoint_selection (fun s => if s = "NEWS_API_KEY" then some "KEY" else none)
      (fun _ _ => Json.obj []) "KEY" "ai" rfl (by decide)).2.2.1 (by decide)).2⟩

/-- C8 (counterexample): the five canonical fields are not always strings: a
raw record with `"title": null` normalizes to an article whose `title` field
is `null`, not a string. -/
theorem nonstring_field_cex :
    normalizeArticles [rawNullTitle] "NEWS" = .ok [normNullTitle]
    ∧ jGetField normNullTitle "title" = some Json.null
    ∧ isStringValue (jGetField normNullTitle "title") = false :=
  ⟨rfl, rfl, rfl⟩

/-- C8 (amended): every article in a list produced by `normalize_articles` has
all five canonical fields present — never absent — though the values carried
over from the raw record may be non-strings when the provider supplies
non-string data. -/
theorem normalize_fields_always_present (arts : List Json) (src : String) (out : List Json)
    (h : normalizeArticles arts src = .ok out) :
    ∀ c ∈ out, hasCanonicalFields c = true := by
  induction arts generalizing out with
  | nil =>
    unfold normalizeArticles at h
    simp only [Except.ok.injEq] at h
    subst h
    intro c hc
    exact absurd hc (List.not_mem_nil c)
  | cons a as ih =>
    unfold normalizeArticles at h
    cases h1 : normalizeOne a src with
    | error e => rw [h1] at h; exact absurd h (by simp)
    | ok r =>
      rw [h1] at h
      cases h2 : normalizeArticles as src with
      | error e => rw [h2] at h; exact absurd h (by simp)
      | ok rest =>
        rw [h2] at h
        simp only [Except.ok.injEq] at h
        subst h
        intro c hc
        rcases List.mem_append.mp hc with hcl | hcr
        · cases r with
          | none => exact absurd hcl (by simp)
          | some x =>
            simp only [Option.toList_some, List.mem_singleton] at hcl
            subst hcl
            exact normalizeOne_fields a src c h1
        · exact ih rest h2 c hcr

/-- Witness for the amended C8 at the concrete record `rawNullTitle`. -/
theorem normalize_fields_present_witness : hasCanonicalFields normNullTitle = true :=
  normalize_fields_always_present [rawNullTitle] "NEWS" [normNullTitle] rfl
    normNullTitle (List.Mem.head _)

/-- C9: `normalize_articles` is deterministic and pure — its embedding takes
no environment, clock or mutable state (the source reads none), so two runs on
equal inputs return equal outputs. -/
theorem normalize_deterministic (a₁ a₂ : List Json) (s₁ s₂ : String)
    (h1 : a₁ = a₂) (h2 : s₁ = s₂) :
    normalizeArticles a₁ s₁ = normalizeArticles a₂ s₂ := by
  rw [h1, h2]

/-- Witness for C9 at a concrete input. -/
theorem normalize_deterministic_witness :
    normalizeArticles [Json.obj [("title", Json.str "x")]] "NEWS" =
      normalizeArticles [Json.obj [("title", Json.str "x")]] "NEWS" :=
  normalize_deterministic _ _ _ _ rfl rfl

/-- C10: `main()` of src/main.py never propagates an exception: its result is
always `.ok`; with `CURRENTS_API_KEY` unset it prints the diagnostic and does
not call `fetch_news` (flag `false`); and whenever the guarded block
(`fetch_news` then `display_news`, including `raise_for_status` errors)
raises `e`, it prints `"An error occurred: e"`. -/
theorem mainPy_never_raises (env : EnvFn) (oracle : String → Except String Json) :
    (mainPy env oracle).isOk = true
    ∧ (env "CURRENTS_API_KEY" = none → mainPy env oracle = .ok ([keyDiagMsg], false))
    ∧ (∀ k e, env "CURRENTS_API_KEY" = some k → k ≠ "" →
        (do
          let newsData ← oracle k
          displayNews newsData) = Except.error e →
        mainPy env oracle = .ok (["An error occurred: " ++ e], true)) := by
  refine ⟨?_, ?_, ?_⟩
  · cases henv : env "CURRENTS_API_KEY" with
    | none => simp [mainPy, henv, Except.isOk, Except.toBool]
    | some k =>
      by_cases hk : k = ""
      · simp [mainPy, henv, hk, Except.isOk, Except.toBool]
      · cases hdo : (do
            let newsData ← oracle k
            displayNews newsData) with
        | ok lines => simp [mainPy, henv, hk, hdo, Except.isOk, Except.toBool]
        | error e => simp [mainPy, henv, hk, hdo, Except.isOk, Except.toBool]
  · intro hnone
    simp [mainPy, hnone]
  · intro k e hk hne hdo
    simp [mainPy, hk, hne, hdo]

/-- Witness for C10: a missing key, and an HTTP error from `fetch_news`. -/
theorem mainPy_never_raises_witness :
    mainPy (fun _ => none) (fun _ => Except.ok Json.null) = .ok ([keyDiagMsg], false)
    ∧ mainPy (fun _ => some "CK") (fun _ => Except.error "HTTPError: 500") =
        .ok (["An error occurred: HTTPError: 500"], true) :=
  ⟨(mainPy_never_raises (fun _ => none) (fun _ => Except.ok Json.null)).2.1 rfl,
   (mainPy_never_raises (fun _ => some "CK") (fun _ => Except.error "HTTPError: 500")).2.2
      "CK" "HTTPError: 500" rfl (by decide) rfl⟩
